import Mathlib

/-!
# IIS2MDC magnetometer driver: data-ready trigger dispatch

A shallow embedding of `drivers/sensor/iis2mdc/iis2mdc_trigger.c`.

* Driver state (`struct iis2mdc_data`) is an explicit record that every
  function receives and returns inside a `World`.
* Every call that leaves the file (register access, GPIO facility, kernel
  objects, the application handler, the log) is appended to `World.trace`,
  so "exactly one call", "before" and "no call" are statements about lists.
* The value a collaborator returns is read from an environment `Env`; it may
  depend on the whole history of calls, and every theorem quantifies over it.
-/

namespace Iis2mdc

/-! ## Constants declared in headers outside this file -/

/-- Modelled from the spec: errno value of the `IoError` results (errno.h is
not among the sources; Zephyr minimal libc value). -/
def EIO : Int := 5

/-- Modelled from the spec: errno value of `DeviceNotFound` (errno.h is not
among the sources; Zephyr minimal libc value). -/
def EINVAL : Int := 22

/-- Modelled from the spec: errno value of `Unsupported` (errno.h is not among
the sources; Zephyr minimal libc value). -/
def ENOTSUP : Int := 35

/-- Modelled from the spec: the MAGNETIC_XYZ member of `enum sensor_channel`
(drivers/sensor.h is not among the sources). -/
def SENSOR_CHAN_MAGN_XYZ : Nat := 11

/-- Modelled from the spec: the DATA_READY member of
`enum sensor_trigger_type` (drivers/sensor.h is not among the sources). -/
def SENSOR_TRIG_DATA_READY : Nat := 1

/-- Modelled from the spec: the input-mode flag of `gpio_pin_configure`
(drivers/gpio.h is not among the sources). -/
def GPIO_INPUT : Nat := 256

/-- Bound of `unsigned int`, the semaphore limit passed by the driver. -/
def UINT_MAX : Nat := 2 ^ 32 - 1

/-- The macro `BIT(n)`, `1UL << n`, on a 32-bit `unsigned long`. -/
def BIT (n : Nat) : Nat := (1 <<< n) % 2 ^ 32

/-- The two interrupt modes the driver passes to
`gpio_pin_interrupt_configure`. -/
inductive gpio_int_flags where
  | GPIO_INT_DISABLE
  | GPIO_INT_EDGE_TO_ACTIVE
deriving DecidableEq, Repr

/-! ## Data model -/

/-- A non-null `sensor_trigger_handler_t`: the identity of an application
function. A nullable handler is an `Option FunctionRef`. -/
abbrev FunctionRef := Nat

/-- The record `struct sensor_trigger`. -/
structure sensor_trigger where
  type : Nat
  chan : Nat
deriving DecidableEq, Repr

/-- The fields of `struct iis2mdc_config` this file reads. -/
structure iis2mdc_config where
  drdy_port : String
  drdy_pin : Nat
  drdy_flags : Nat
deriving DecidableEq, Repr

/-- The record `struct device`. `config_info` is an untyped pointer in C and
every function of this file reads it through `const struct iis2mdc_config *`;
the field holds what that read yields, for the sensor device and for any other
device (a GPIO port) alike. `driver_data` of the sensor is `World.iis2mdc`. -/
structure device where
  name : String
  config_info : iis2mdc_config
deriving DecidableEq, Repr

/-- The record `struct gpio_callback` after `gpio_init_callback`:
`handler_set` tells that the handler is `iis2mdc_gpio_callback`. -/
structure gpio_callback where
  handler_set : Bool
  pin_mask : Nat
deriving DecidableEq, Repr

/-- The counting semaphore `struct k_sem`. -/
structure k_sem where
  count : Nat
  limit : Nat
deriving DecidableEq, Repr

/-- The work item `struct k_work`: `handler_set` tells that the handler is
`iis2mdc_work_cb`, `pending` that the item is queued. -/
structure k_work where
  handler_set : Bool
  pending : Bool
deriving DecidableEq, Repr

/-- The build-time choice between `CONFIG_IIS2MDC_TRIGGER_OWN_THREAD` and
`CONFIG_IIS2MDC_TRIGGER_GLOBAL_THREAD`. -/
inductive trigger_mode where
  | OWN_THREAD
  | GLOBAL_THREAD
deriving DecidableEq, Repr

/-- The trigger part of `struct iis2mdc_data`. The members of both build
variants are kept; each variant only touches its own. `thread` tells that the
worker thread was created. -/
structure iis2mdc_data where
  ctx : Nat
  handler_drdy : Option FunctionRef
  gpio : Option device
  gpio_cb : gpio_callback
  gpio_sem : k_sem
  thread : Bool
  work : k_work
  dev : Option device
deriving DecidableEq, Repr

/-- A call that leaves this file, with its arguments. A device pointer that may
be NULL is an `Option device`. -/
inductive Call where
  | device_get_binding (name : String)
  | iis2mdc_magnetic_raw_get (ctx : Nat)
  | iis2mdc_drdy_on_pin_set (ctx : Nat) (val : Nat)
  | handler (f : FunctionRef) (dev : device) (trig : sensor_trigger)
  | gpio_pin_configure (port : Option device) (pin : Nat) (flags : Nat)
  | gpio_init_callback (pin_mask : Nat)
  | gpio_add_callback (port : Option device)
  | gpio_pin_interrupt_configure (port : Option device) (pin : Nat)
      (flags : gpio_int_flags)
  | k_sem_init (initial : Nat) (limit : Nat)
  | k_thread_create
  | k_sem_give
  | k_sem_take
  | k_work_submit
  | LOG_DBG (msg : String)
deriving DecidableEq, Repr

/-- What the collaborators answer: the device table, and the integer result of
each call, which may depend on all calls made before it. -/
structure Env where
  device_get_binding : String → Option device
  ret : List Call → Call → Int

/-- Driver data, the state of the GPIO facility, and the history of calls.
`gpio_int port pin` is the interrupt mode the port last accepted for the pin,
`gpio_cbs` lists the ports on which the driver callback is installed. -/
structure World where
  iis2mdc : iis2mdc_data
  gpio_int : device → Nat → gpio_int_flags
  gpio_cbs : List device
  trace : List Call

/-! ## Collaborators -/

/-- Record a call and read its result from the environment. -/
def call (env : Env) (c : Call) (w : World) : Int × World :=
  (env.ret w.trace c, { w with trace := w.trace ++ [c] })

/-- Record a call that returns nothing. -/
def emit (c : Call) (w : World) : World :=
  { w with trace := w.trace ++ [c] }

/-- Register read of one raw magnetic sample. -/
def iis2mdc_magnetic_raw_get (env : Env) (ctx : Nat) (w : World) : Int × World :=
  call env (Call.iis2mdc_magnetic_raw_get ctx) w

/-- Register write that routes the data-ready signal to the pin (or stops). -/
def iis2mdc_drdy_on_pin_set (env : Env) (ctx : Nat) (val : Nat) (w : World) :
    Int × World :=
  call env (Call.iis2mdc_drdy_on_pin_set ctx val) w

/-- Modelled from the spec: `gpio.configure(pin, mode, flags)` of the GPIO
facility (drivers/gpio.h), whose code is outside the sources. -/
def gpio_pin_configure (env : Env) (port : Option device) (pin flags : Nat)
    (w : World) : Int × World :=
  call env (Call.gpio_pin_configure port pin flags) w

/-- Modelled from the spec: `gpio.setInterrupt(pin, edge-mode|disabled)` of
the GPIO facility, whose code is outside the sources. The port takes the new
mode exactly when the call reports success (0). -/
def gpio_pin_interrupt_configure (env : Env) (port : Option device) (pin : Nat)
    (flags : gpio_int_flags) (w : World) : Int × World :=
  let r := env.ret w.trace (Call.gpio_pin_interrupt_configure port pin flags)
  let w1 := emit (Call.gpio_pin_interrupt_configure port pin flags) w
  match port with
  | some p =>
    if r = 0 then
      (r, { w1 with gpio_int := fun d n =>
              if d = p ∧ n = pin then flags else w1.gpio_int d n })
    else (r, w1)
  | none => (r, w1)

/-- The helper `gpio_init_callback` of drivers/gpio.h: fills the callback
record. -/
def gpio_init_callback (pin_mask : Nat) (w : World) : World :=
  let w1 := emit (Call.gpio_init_callback pin_mask) w
  { w1 with iis2mdc := { w1.iis2mdc with
      gpio_cb := { handler_set := true, pin_mask := pin_mask } } }

/-- Modelled from the spec: `gpio.installCallback(pin-mask, fn)` of the GPIO
facility, whose code is outside the sources. The callback is installed on the
port exactly when the call reports success (0). -/
def gpio_add_callback (env : Env) (port : Option device) (w : World) :
    Int × World :=
  let r := env.ret w.trace (Call.gpio_add_callback port)
  let w1 := emit (Call.gpio_add_callback port) w
  match port with
  | some p => if r = 0 then (r, { w1 with gpio_cbs := p :: w1.gpio_cbs }) else (r, w1)
  | none => (r, w1)

/-- Kernel call `k_sem_init`. -/
def k_sem_init (initial limit : Nat) (w : World) : World :=
  let w1 := emit (Call.k_sem_init initial limit) w
  { w1 with iis2mdc := { w1.iis2mdc with
      gpio_sem := { count := initial, limit := limit } } }

/-- Kernel call `k_thread_create` for the worker `iis2mdc_thread`. -/
def k_thread_create (w : World) : World :=
  let w1 := emit Call.k_thread_create w
  { w1 with iis2mdc := { w1.iis2mdc with thread := true } }

/-- Kernel call `k_sem_give`: one more signal, up to the limit. -/
def k_sem_give (w : World) : World :=
  let w1 := emit Call.k_sem_give w
  let s := w1.iis2mdc.gpio_sem
  { w1 with iis2mdc := { w1.iis2mdc with
      gpio_sem := { s with count := if s.count < s.limit then s.count + 1 else s.count } } }

/-- Kernel call `k_work_submit`: queues the item unless it is queued already. -/
def k_work_submit (w : World) : World :=
  let w1 := emit Call.k_work_submit w
  { w1 with iis2mdc := { w1.iis2mdc with
      work := { w1.iis2mdc.work with pending := true } } }

/-- The application handler is called; its body is outside the driver and is
represented by the call alone. -/
def invoke_handler (f : FunctionRef) (dev : device) (trig : sensor_trigger)
    (w : World) : World :=
  emit (Call.handler f dev trig) w

/-! ## The functions of iis2mdc_trigger.c -/

/-- Source lines 21-27. -/
def iis2mdc_enable_int (env : Env) (_dev : device) (enable : Nat) (w : World) :
    Int × World :=
  iis2mdc_drdy_on_pin_set env w.iis2mdc.ctx enable w

/-- Source lines 30-50. -/
def iis2mdc_trigger_set (env : Env) (dev : device) (trig : sensor_trigger)
    (handler : Option FunctionRef) (w : World) : Int × World :=
  if trig.chan = SENSOR_CHAN_MAGN_XYZ then
    let w1 := { w with iis2mdc := { w.iis2mdc with handler_drdy := handler } }
    if handler.isSome then
      let w2 := (iis2mdc_magnetic_raw_get env w1.iis2mdc.ctx w1).2
      iis2mdc_enable_int env dev 1 w2
    else
      iis2mdc_enable_int env dev 0 w1
  else
    (-ENOTSUP, w)

/-- Source lines 53-69. -/
def iis2mdc_handle_interrupt (env : Env) (dev : device) (w : World) : World :=
  let config := dev.config_info
  let drdy_trigger : sensor_trigger := { type := SENSOR_TRIG_DATA_READY, chan := 0 }
  let w1 :=
    match w.iis2mdc.handler_drdy with
    | some f => invoke_handler f dev drdy_trigger w
    | none => w
  (gpio_pin_interrupt_configure env w1.iis2mdc.gpio config.drdy_pin
    gpio_int_flags.GPIO_INT_EDGE_TO_ACTIVE w1).2

/-- Source lines 71-87. `dev` is the device the GPIO facility passes to the
callback; the driver data is recovered from the callback record, not from
`dev`. -/
def iis2mdc_gpio_callback (env : Env) (mode : trigger_mode) (dev : device)
    (_pins : Nat) (w : World) : World :=
  let config := dev.config_info
  let w1 := (gpio_pin_interrupt_configure env (some dev) config.drdy_pin
    gpio_int_flags.GPIO_INT_DISABLE w).2
  match mode with
  | trigger_mode.OWN_THREAD => k_sem_give w1
  | trigger_mode.GLOBAL_THREAD => k_work_submit w1

/-- Source lines 105-111. A NULL back-reference would fault; the model leaves
the world as it is. -/
def iis2mdc_work_cb (env : Env) (w : World) : World :=
  match w.iis2mdc.dev with
  | some d => iis2mdc_handle_interrupt env d w
  | none => w

/-- Source lines 114-153. -/
def iis2mdc_init_interrupt (env : Env) (mode : trigger_mode) (dev : device)
    (w : World) : Int × World :=
  let config := dev.config_info
  let w0 := emit (Call.device_get_binding config.drdy_port) w
  let w1 := { w0 with iis2mdc := { w0.iis2mdc with
                gpio := env.device_get_binding config.drdy_port } }
  if w1.iis2mdc.gpio = none then
    (- EINVAL, emit (Call.LOG_DBG "Cannot get pointer to %s device") w1)
  else
    let w2 :=
      match mode with
      | trigger_mode.OWN_THREAD => k_thread_create (k_sem_init 0 UINT_MAX w1)
      | trigger_mode.GLOBAL_THREAD =>
        { w1 with iis2mdc := { w1.iis2mdc with
            work := { w1.iis2mdc.work with handler_set := true }, dev := some dev } }
    let w3 := (gpio_pin_configure env w2.iis2mdc.gpio config.drdy_pin
      (GPIO_INPUT ||| config.drdy_flags) w2).2
    let w4 := gpio_init_callback (BIT config.drdy_pin) w3
    let r := gpio_add_callback env w4.iis2mdc.gpio w4
    if r.1 < 0 then
      (- EIO, emit (Call.LOG_DBG "Could not set gpio callback") r.2)
    else
      gpio_pin_interrupt_configure env r.2.iis2mdc.gpio config.drdy_pin
        gpio_int_flags.GPIO_INT_EDGE_TO_ACTIVE r.2

/-! ## The deferred context and the physical pin -/

/-- Kernel call `k_sem_take` returning with one signal consumed. -/
def k_sem_take (w : World) : World :=
  let w1 := emit Call.k_sem_take w
  let s := w1.iis2mdc.gpio_sem
  { w1 with iis2mdc := { w1.iis2mdc with gpio_sem := { s with count := s.count - 1 } } }

/-- The application handlers called in a stretch of history, each with the
trigger type it received. -/
def handler_calls : List Call → List (FunctionRef × Nat)
  | [] => []
  | Call.handler f _ t :: l => (f, t.type) :: handler_calls l
  | _ :: l => handler_calls l

/-- Modelled from the spec: an edge on `pin` of `port` as the GPIO facility
(outside the sources) delivers it: the edge is observed only while the pin is
armed for edge detection, and then the installed callback whose mask selects
the pin runs with the port as its device argument. -/
def gpio_edge (env : Env) (mode : trigger_mode) (port : device) (pin : Nat)
    (w : World) : World :=
  if w.gpio_int port pin = gpio_int_flags.GPIO_INT_EDGE_TO_ACTIVE ∧ port ∈ w.gpio_cbs
      ∧ w.iis2mdc.gpio_cb.handler_set = true
      ∧ w.iis2mdc.gpio_cb.pin_mask &&& BIT pin ≠ 0 then
    iis2mdc_gpio_callback env mode port (w.iis2mdc.gpio_cb.pin_mask &&& BIT pin) w
  else w

/-- The world together with the number of runs of `iis2mdc_handle_interrupt`
that have started and not completed. -/
structure Sys where
  w : World
  running : Nat

/-- The three kinds of step of the running system. -/
inductive Step where
  | edge
  | take
  | complete
deriving DecidableEq, Repr

/-- Signals waiting for the deferred context: the semaphore count (own
thread) or the queued work item (global work queue). -/
def pending (mode : trigger_mode) (w : World) : Nat :=
  match mode with
  | trigger_mode.OWN_THREAD => w.iis2mdc.gpio_sem.count
  | trigger_mode.GLOBAL_THREAD => if w.iis2mdc.work.pending then 1 else 0

/-- The deferred context takes one pending signal: `iis2mdc_thread` returns
from `k_sem_take` (source line 98), or the work queue dequeues the item and
enters `iis2mdc_work_cb`. A context that is busy or not set up takes nothing. -/
def deferred_take (mode : trigger_mode) (s : Sys) : Sys :=
  match mode with
  | trigger_mode.OWN_THREAD =>
    if s.w.iis2mdc.thread = true ∧ s.running = 0 ∧ 0 < s.w.iis2mdc.gpio_sem.count then
      { w := k_sem_take s.w, running := 1 }
    else s
  | trigger_mode.GLOBAL_THREAD =>
    if s.w.iis2mdc.work.handler_set = true ∧ s.running = 0
        ∧ s.w.iis2mdc.work.pending = true then
      { w := { s.w with iis2mdc := { s.w.iis2mdc with
                work := { s.w.iis2mdc.work with pending := false } } },
        running := 1 }
    else s

/-- The started run of the handler executes and returns: source line 99 for
the own thread (the thread argument is the sensor device), lines 105-111 for
the work queue. -/
def deferred_complete (env : Env) (mode : trigger_mode) (dev : device) (s : Sys) : Sys :=
  if s.running = 0 then s
  else
    { w := match mode with
        | trigger_mode.OWN_THREAD => iis2mdc_handle_interrupt env dev s.w
        | trigger_mode.GLOBAL_THREAD => iis2mdc_work_cb env s.w,
      running := s.running - 1 }

/-- One step of the system of sensor `dev`, whose data-ready line is wired to
pin `dev.config_info.drdy_pin` of the bound GPIO port. -/
def step (env : Env) (mode : trigger_mode) (dev : device) (a : Step) (s : Sys) : Sys :=
  match a with
  | Step.edge =>
    match s.w.iis2mdc.gpio with
    | some port => { s with w := gpio_edge env mode port dev.config_info.drdy_pin s.w }
    | none => s
  | Step.take => deferred_take mode s
  | Step.complete => deferred_complete env mode dev s

/-- A sequence of steps. -/
def run (env : Env) (mode : trigger_mode) (dev : device) (l : List Step) (s : Sys) : Sys :=
  l.foldl (fun acc a => step env mode dev a acc) s

/-- The state at boot: zeroed driver data, no pin armed, no callback
installed, empty history. -/
def boot (ctx : Nat) : World :=
  { iis2mdc := { ctx := ctx, handler_drdy := none, gpio := none,
                 gpio_cb := { handler_set := false, pin_mask := 0 },
                 gpio_sem := { count := 0, limit := 0 }, thread := false,
                 work := { handler_set := false, pending := false }, dev := none },
    gpio_int := fun _ _ => gpio_int_flags.GPIO_INT_DISABLE,
    gpio_cbs := [],
    trace := [] }

/-- An environment in which `port` is the only device and every call succeeds. -/
def okEnv (port : device) : Env :=
  { device_get_binding := fun n => if n = port.name then some port else none,
    ret := fun _ _ => 0 }

/-- The calls to the log in a stretch of history. -/
def log_calls : List Call → List String
  | [] => []
  | Call.LOG_DBG m :: l => m :: log_calls l
  | _ :: l => log_calls l

/-- A sensor instance wired to pin 4 of port "GPIOA". -/
def sensorA : device := ⟨"IIS2MDC", ⟨"GPIOA", 4, 0⟩⟩

/-- A GPIO port whose own configuration record, read through
`const struct iis2mdc_config *`, shows 5 where `drdy_pin` lies. -/
def portA : device := ⟨"GPIOA", ⟨"", 5, 0⟩⟩

/-- A GPIO port whose own configuration record happens to show the sensor's
pin number 4 where `drdy_pin` lies. -/
def portB : device := ⟨"GPIOA", ⟨"", 4, 0⟩⟩

/-- An environment in which `port` is the only device, `gpio_pin_configure`
fails with `-EIO` and every other call succeeds. -/
def pinConfigureFailEnv (port : device) : Env :=
  { device_get_binding := fun n => if n = port.name then some port else none,
    ret := fun _ c =>
      match c with
      | Call.gpio_pin_configure _ _ _ => - EIO
      | _ => 0 }

/-- An environment in which `port` is the only device, arming a pin for
edge detection fails with `-EIO` and every other call succeeds. -/
def rearmFailEnv (port : device) : Env :=
  { device_get_binding := fun n => if n = port.name then some port else none,
    ret := fun _ c =>
      match c with
      | Call.gpio_pin_interrupt_configure _ _ gpio_int_flags.GPIO_INT_EDGE_TO_ACTIVE => - EIO
      | _ => 0 }

/-- The system of `sensorA` on `port` after a successful initialisation from
boot, every collaborator succeeding. -/
def initA (mode : trigger_mode) (port : device) : World :=
  (iis2mdc_init_interrupt (okEnv port) mode sensorA (boot 0)).2

/-- The system of `sensorA` on `portB` with handler 7 registered, after one
edge was taken by the deferred context: the pin is disarmed and the handler
run is about to execute. -/
def takenA (mode : trigger_mode) : Sys :=
  run (okEnv portB) mode sensorA [Step.edge, Step.take]
    ⟨(iis2mdc_trigger_set (okEnv portB) sensorA ⟨SENSOR_TRIG_DATA_READY, SENSOR_CHAN_MAGN_XYZ⟩
        (some 7) (initA mode portB)).2, 0⟩

/-- The in-flight bound for the sensor line on `pin` of `port`: the port is
bound, pending signals plus running handler runs are at most one, and the pin
is armed only when there are none. -/
def in_flight_ok (mode : trigger_mode) (port : device) (pin : Nat) (s : Sys) : Prop :=
  s.w.iis2mdc.gpio = some port
  ∧ pending mode s.w + s.running ≤ 1
  ∧ (s.w.gpio_int port pin = gpio_int_flags.GPIO_INT_EDGE_TO_ACTIVE
      → pending mode s.w + s.running = 0)

/-- The steps of a schedule that belong to the deferred context: every step
but the physical edge. -/
def deferred_steps (l : List Step) : List Step :=
  l.filter (fun a => decide (a ≠ Step.edge))

/-- The system of sensor `dev` after initialisation from boot and the
registration of handler `f`, nothing running. -/
def registered (env : Env) (mode : trigger_mode) (dev : device) (trig : sensor_trigger)
    (f : FunctionRef) (ctx : Nat) : Sys :=
  ⟨(iis2mdc_trigger_set env dev trig (some f)
      (iis2mdc_init_interrupt env mode dev (boot ctx)).2).2, 0⟩

/-- The system of `sensorA` on `portB` after a successful initialisation and a
successful clearing of the registration, nothing running. -/
def clearedA (mode : trigger_mode) : Sys :=
  ⟨(iis2mdc_trigger_set (okEnv portB) sensorA ⟨SENSOR_TRIG_DATA_READY, SENSOR_CHAN_MAGN_XYZ⟩
      none (initA mode portB)).2, 0⟩

/-! ## Basic facts -/

theorem BIT_ne_zero (n : Nat) (h : n < 32) : BIT n ≠ 0 := by
  unfold BIT
  rw [Nat.one_shiftLeft, Nat.mod_eq_of_lt (Nat.pow_lt_pow_right (by norm_num) h)]
  positivity

theorem handler_calls_append (l₁ l₂ : List Call) :
    handler_calls (l₁ ++ l₂) = handler_calls l₁ ++ handler_calls l₂ := by
  induction l₁ with
  | nil => rfl
  | cons c l ih => cases c <;> simp [handler_calls, ih]

theorem gpic_trace (env : Env) (port : Option device) (pin : Nat) (fl : gpio_int_flags)
    (w : World) :
    (gpio_pin_interrupt_configure env port pin fl w).2.trace
      = w.trace ++ [Call.gpio_pin_interrupt_configure port pin fl] := by
  unfold gpio_pin_interrupt_configure
  cases port with
  | none => rfl
  | some p => by_cases h : env.ret w.trace (Call.gpio_pin_interrupt_configure (some p) pin fl) = 0
              <;> simp [h, emit]

theorem gpic_iis2mdc (env : Env) (port : Option device) (pin : Nat) (fl : gpio_int_flags)
    (w : World) :
    (gpio_pin_interrupt_configure env port pin fl w).2.iis2mdc = w.iis2mdc := by
  unfold gpio_pin_interrupt_configure
  cases port with
  | none => rfl
  | some p => by_cases h : env.ret w.trace (Call.gpio_pin_interrupt_configure (some p) pin fl) = 0
              <;> simp [h, emit]

theorem gpic_gpio_cbs (env : Env) (port : Option device) (pin : Nat) (fl : gpio_int_flags)
    (w : World) :
    (gpio_pin_interrupt_configure env port pin fl w).2.gpio_cbs = w.gpio_cbs := by
  unfold gpio_pin_interrupt_configure
  cases port with
  | none => rfl
  | some p => by_cases h : env.ret w.trace (Call.gpio_pin_interrupt_configure (some p) pin fl) = 0
              <;> simp [h, emit]

theorem gpic_ret (env : Env) (port : Option device) (pin : Nat) (fl : gpio_int_flags)
    (w : World) :
    (gpio_pin_interrupt_configure env port pin fl w).1
      = env.ret w.trace (Call.gpio_pin_interrupt_configure port pin fl) := by
  unfold gpio_pin_interrupt_configure
  cases port with
  | none => rfl
  | some p => by_cases h : env.ret w.trace (Call.gpio_pin_interrupt_configure (some p) pin fl) = 0
              <;> simp [h]

theorem gpic_world_of_fail (env : Env) (port : Option device) (pin : Nat)
    (fl : gpio_int_flags) (w : World)
    (h : env.ret w.trace (Call.gpio_pin_interrupt_configure port pin fl) ≠ 0) :
    (gpio_pin_interrupt_configure env port pin fl w).2
      = emit (Call.gpio_pin_interrupt_configure port pin fl) w := by
  unfold gpio_pin_interrupt_configure
  cases port with
  | none => rfl
  | some p => simp [h]

theorem log_calls_append (l₁ l₂ : List Call) :
    log_calls (l₁ ++ l₂) = log_calls l₁ ++ log_calls l₂ := by
  induction l₁ with
  | nil => rfl
  | cons c l ih => cases c <;> simp [log_calls, ih]

/-- The handler run: what it records, and that it leaves the driver data alone. -/
theorem handle_interrupt_trace (env : Env) (dev : device) (w : World) :
    (iis2mdc_handle_interrupt env dev w).trace
      = w.trace
        ++ (match w.iis2mdc.handler_drdy with
            | some f => [Call.handler f dev ⟨SENSOR_TRIG_DATA_READY, 0⟩]
            | none => [])
        ++ [Call.gpio_pin_interrupt_configure w.iis2mdc.gpio dev.config_info.drdy_pin
              gpio_int_flags.GPIO_INT_EDGE_TO_ACTIVE] := by
  unfold iis2mdc_handle_interrupt
  cases h : w.iis2mdc.handler_drdy <;> simp [gpic_trace, invoke_handler, emit, h]

theorem handle_interrupt_iis2mdc (env : Env) (dev : device) (w : World) :
    (iis2mdc_handle_interrupt env dev w).iis2mdc = w.iis2mdc := by
  unfold iis2mdc_handle_interrupt
  cases h : w.iis2mdc.handler_drdy <;> simp [gpic_iis2mdc, invoke_handler, emit]

/-- The edge callback: what it records. -/
theorem gpio_callback_trace (env : Env) (mode : trigger_mode) (dev : device) (pins : Nat)
    (w : World) :
    (iis2mdc_gpio_callback env mode dev pins w).trace
      = w.trace ++ [Call.gpio_pin_interrupt_configure (some dev) dev.config_info.drdy_pin
                      gpio_int_flags.GPIO_INT_DISABLE,
                    match mode with
                    | trigger_mode.OWN_THREAD => Call.k_sem_give
                    | trigger_mode.GLOBAL_THREAD => Call.k_work_submit] := by
  unfold iis2mdc_gpio_callback
  cases mode <;> simp [k_sem_give, k_work_submit, emit, gpic_trace]

theorem gpio_callback_handler_drdy (env : Env) (mode : trigger_mode) (dev : device)
    (pins : Nat) (w : World) :
    (iis2mdc_gpio_callback env mode dev pins w).iis2mdc.handler_drdy
      = w.iis2mdc.handler_drdy := by
  unfold iis2mdc_gpio_callback
  cases mode <;> simp [k_sem_give, k_work_submit, emit, gpic_iis2mdc]

/-- One step only appends to the history, keeps the registration, and calls
no application handler other than the registered one, with DATA_READY. -/
theorem step_calls (env : Env) (mode : trigger_mode) (dev : device) (a : Step) (s : Sys) :
    ∃ ext, (step env mode dev a s).w.trace = s.w.trace ++ ext
      ∧ (step env mode dev a s).w.iis2mdc.handler_drdy = s.w.iis2mdc.handler_drdy
      ∧ ∀ p ∈ handler_calls ext,
          s.w.iis2mdc.handler_drdy = some p.1 ∧ p.2 = SENSOR_TRIG_DATA_READY := by
  cases a with
  | edge =>
    unfold step
    cases hg : s.w.iis2mdc.gpio with
    | none => exact ⟨[], by simp, rfl, by simp [handler_calls]⟩
    | some port =>
      simp only [gpio_edge]
      split_ifs
      · refine ⟨_, gpio_callback_trace _ _ _ _ _, gpio_callback_handler_drdy _ _ _ _ _, ?_⟩
        cases mode <;> simp [handler_calls]
      · exact ⟨[], by simp, rfl, by simp [handler_calls]⟩
  | take =>
    unfold step deferred_take
    cases mode
    · simp only
      split_ifs
      · exact ⟨[Call.k_sem_take], by simp [k_sem_take, emit], by simp [k_sem_take, emit],
          by simp [handler_calls]⟩
      · exact ⟨[], by simp, rfl, by simp [handler_calls]⟩
    · simp only
      split_ifs
      · exact ⟨[], by simp, rfl, by simp [handler_calls]⟩
      · exact ⟨[], by simp, rfl, by simp [handler_calls]⟩
  | complete =>
    unfold step deferred_complete
    split_ifs
    · exact ⟨[], by simp, rfl, by simp [handler_calls]⟩
    · cases mode
      · refine ⟨_, by simp only [handle_interrupt_trace, List.append_assoc]; rfl,
          by simp [handle_interrupt_iis2mdc], ?_⟩
        cases h : s.w.iis2mdc.handler_drdy <;> simp [handler_calls]
      · simp only [iis2mdc_work_cb]
        cases hd : s.w.iis2mdc.dev with
        | none => exact ⟨[], by simp, rfl, by simp [handler_calls]⟩
        | some d =>
          refine ⟨_, by simp only [handle_interrupt_trace, List.append_assoc]; rfl,
            by simp [handle_interrupt_iis2mdc], ?_⟩
          cases h : s.w.iis2mdc.handler_drdy <;> simp [handler_calls]

/-- The same for any sequence of steps. -/
theorem run_calls (env : Env) (mode : trigger_mode) (dev : device) (l : List Step) :
    ∀ s : Sys, ∃ ext, (run env mode dev l s).w.trace = s.w.trace ++ ext
      ∧ (run env mode dev l s).w.iis2mdc.handler_drdy = s.w.iis2mdc.handler_drdy
      ∧ ∀ p ∈ handler_calls ext,
          s.w.iis2mdc.handler_drdy = some p.1 ∧ p.2 = SENSOR_TRIG_DATA_READY := by
  induction l with
  | nil => intro s; exact ⟨[], by simp [run], rfl, by simp [handler_calls]⟩
  | cons a l ih =>
    intro s
    obtain ⟨e1, ht1, hh1, hc1⟩ := step_calls env mode dev a s
    obtain ⟨e2, ht2, hh2, hc2⟩ := ih (step env mode dev a s)
    refine ⟨e1 ++ e2, ?_, ?_, ?_⟩
    · show (run env mode dev l (step env mode dev a s)).w.trace = _
      rw [ht2, ht1, List.append_assoc]
    · show (run env mode dev l (step env mode dev a s)).w.iis2mdc.handler_drdy = _
      rw [hh2, hh1]
    · intro p hp
      rw [handler_calls_append, List.mem_append] at hp
      rcases hp with hp | hp
      · exact hc1 p hp
      · rw [← hh1]; exact hc2 p hp

/-- A deferred step does nothing when no signal is pending and no handler run
is in progress. -/
theorem step_idle (env : Env) (mode : trigger_mode) (dev : device) (a : Step) (s : Sys)
    (ha : a ≠ Step.edge) (hp : pending mode s.w = 0) (hr : s.running = 0) :
    step env mode dev a s = s := by
  cases a with
  | edge => exact absurd rfl ha
  | take =>
    cases mode
    · simp only [pending] at hp
      simp [step, deferred_take, hp]
    · have hpend : s.w.iis2mdc.work.pending = false := by
        cases h : s.w.iis2mdc.work.pending
        · rfl
        · simp [pending, h] at hp
      simp [step, deferred_take, hpend]
  | complete => simp [step, deferred_complete, hr]

/-- While a handler run is in progress the deferred context takes nothing. -/
theorem step_take_busy (env : Env) (mode : trigger_mode) (dev : device) (s : Sys)
    (hr : s.running ≠ 0) : step env mode dev Step.take s = s := by
  cases mode <;> simp [step, deferred_take, hr]

/-- With no handler run in progress there is nothing to complete. -/
theorem step_complete_idle (env : Env) (mode : trigger_mode) (dev : device) (s : Sys)
    (hr : s.running = 0) : step env mode dev Step.complete s = s := by
  simp [step, deferred_complete, hr]

theorem mem_deferred_steps (l : List Step) (a : Step) (h : a ∈ deferred_steps l) :
    a ≠ Step.edge := by
  unfold deferred_steps at h
  simpa using (List.mem_filter.mp h).2

/-- Every schedule of the deferred context, started with no handler run in
progress, ends in one of three states: where it started, after the take, or
after the take and the completion; the last one is final. -/
theorem deferred_schedule (env : Env) (mode : trigger_mode) (dev : device) (s : Sys)
    (h0 : s.running = 0)
    (h1 : (step env mode dev Step.take s).running ≠ 0)
    (hq : pending mode (step env mode dev Step.complete (step env mode dev Step.take s)).w = 0
      ∧ (step env mode dev Step.complete (step env mode dev Step.take s)).running = 0)
    (l : List Step) :
    run env mode dev (deferred_steps l) s = s
    ∨ run env mode dev (deferred_steps l) s = step env mode dev Step.take s
    ∨ run env mode dev (deferred_steps l) s
        = step env mode dev Step.complete (step env mode dev Step.take s) := by
  have key : ∀ (k : List Step), (∀ a ∈ k, a ≠ Step.edge) → ∀ t : Sys,
      (t = s ∨ t = step env mode dev Step.take s
        ∨ t = step env mode dev Step.complete (step env mode dev Step.take s)) →
      (run env mode dev k t = s ∨ run env mode dev k t = step env mode dev Step.take s
        ∨ run env mode dev k t
            = step env mode dev Step.complete (step env mode dev Step.take s)) := by
    intro k
    induction k with
    | nil => intro _ t ht; exact ht
    | cons a k ih =>
      intro hk t ht
      have ha : a ≠ Step.edge := hk a (List.mem_cons_self a k)
      have hk' : ∀ b ∈ k, b ≠ Step.edge := fun b hb => hk b (List.mem_cons_of_mem a hb)
      show run env mode dev k (step env mode dev a t) = _ ∨ _
      apply ih hk'
      rcases ht with ht | ht | ht
      · subst ht
        cases a with
        | edge => exact absurd rfl ha
        | take => exact Or.inr (Or.inl rfl)
        | complete => exact Or.inl (step_complete_idle env mode dev t h0)
      · subst ht
        cases a with
        | edge => exact absurd rfl ha
        | take => exact Or.inr (Or.inl (step_take_busy env mode dev _ h1))
        | complete => exact Or.inr (Or.inr rfl)
      · subst ht
        exact Or.inr (Or.inr (step_idle env mode dev a _ ha hq.1 hq.2))
  exact key (deferred_steps l) (mem_deferred_steps l) s (Or.inl rfl)

/-- A schedule of the deferred context leaves a state with nothing pending and
nothing running as it is. -/
theorem deferred_idle (env : Env) (mode : trigger_mode) (dev : device) (s : Sys)
    (hp : pending mode s.w = 0) (hr : s.running = 0) (l : List Step) :
    run env mode dev (deferred_steps l) s = s := by
  have key : ∀ (k : List Step), (∀ a ∈ k, a ≠ Step.edge) → run env mode dev k s = s := by
    intro k
    induction k with
    | nil => intro _; rfl
    | cons a k ih =>
      intro hk
      show run env mode dev k (step env mode dev a s) = s
      rw [step_idle env mode dev a s (hk a (List.mem_cons_self a k)) hp hr]
      exact ih (fun b hb => hk b (List.mem_cons_of_mem a hb))
  exact key (deferred_steps l) (mem_deferred_steps l)

/-- Registration stores the handler and keeps everything else of the driver
data. -/
theorem trigger_set_stores (env : Env) (dev : device) (trig : sensor_trigger)
    (f : FunctionRef) (w : World) (h : trig.chan = SENSOR_CHAN_MAGN_XYZ) :
    (iis2mdc_trigger_set env dev trig (some f) w).2.iis2mdc.handler_drdy = some f
    ∧ (iis2mdc_trigger_set env dev trig (some f) w).2.iis2mdc
        = { w.iis2mdc with handler_drdy := some f } := by
  simp [iis2mdc_trigger_set, h, iis2mdc_enable_int, iis2mdc_drdy_on_pin_set,
    iis2mdc_magnetic_raw_get, call]

/-! ## Trigger registry -/

/-- C1: on any channel other than MAGNETIC_XYZ, for any handler argument,
`iis2mdc_trigger_set` returns `-ENOTSUP` and leaves the whole world as it was:
same registered handler, and no call recorded (no raw-sample fetch, no
data-ready-on-pin write). -/
theorem trigger_set_unsupported (env : Env) (dev : device) (trig : sensor_trigger)
    (handler : Option FunctionRef) (w : World)
    (h : trig.chan ≠ SENSOR_CHAN_MAGN_XYZ) :
    (iis2mdc_trigger_set env dev trig handler w).1 = -ENOTSUP
    ∧ (iis2mdc_trigger_set env dev trig handler w).2 = w
    ∧ (iis2mdc_trigger_set env dev trig handler w).2.iis2mdc.handler_drdy
        = w.iis2mdc.handler_drdy
    ∧ (iis2mdc_trigger_set env dev trig handler w).2.trace = w.trace := by
  simp [iis2mdc_trigger_set, h]

theorem trigger_set_unsupported_witness :
    (3 : Nat) ≠ SENSOR_CHAN_MAGN_XYZ
    ∧ (iis2mdc_trigger_set (okEnv ⟨"GPIOA", ⟨"", 0, 0⟩⟩) ⟨"IIS2MDC", ⟨"GPIOA", 4, 0⟩⟩
        ⟨1, 3⟩ (some 7) (boot 0)).1 = -ENOTSUP :=
  ⟨by decide,
   (trigger_set_unsupported (okEnv ⟨"GPIOA", ⟨"", 0, 0⟩⟩) ⟨"IIS2MDC", ⟨"GPIOA", 4, 0⟩⟩
      ⟨1, 3⟩ (some 7) (boot 0) (by decide)).1⟩

/-- C2: on the MAGNETIC_XYZ channel with a non-null handler, from any world,
`iis2mdc_trigger_set` stores the handler and records exactly two calls: one
raw-sample fetch, then one data-ready-on-pin write with value 1; it returns
exactly what that write returned. -/
theorem trigger_set_register (env : Env) (dev : device) (trig : sensor_trigger)
    (f : FunctionRef) (w : World) (h : trig.chan = SENSOR_CHAN_MAGN_XYZ) :
    (iis2mdc_trigger_set env dev trig (some f) w).2.trace
        = w.trace ++ [Call.iis2mdc_magnetic_raw_get w.iis2mdc.ctx,
                      Call.iis2mdc_drdy_on_pin_set w.iis2mdc.ctx 1]
    ∧ (iis2mdc_trigger_set env dev trig (some f) w).1
        = env.ret (w.trace ++ [Call.iis2mdc_magnetic_raw_get w.iis2mdc.ctx])
            (Call.iis2mdc_drdy_on_pin_set w.iis2mdc.ctx 1)
    ∧ (iis2mdc_trigger_set env dev trig (some f) w).2.iis2mdc.handler_drdy = some f := by
  simp [iis2mdc_trigger_set, h, iis2mdc_enable_int, iis2mdc_drdy_on_pin_set,
    iis2mdc_magnetic_raw_get, call]

theorem trigger_set_register_witness :
    (11 : Nat) = SENSOR_CHAN_MAGN_XYZ
    ∧ (iis2mdc_trigger_set (okEnv ⟨"GPIOA", ⟨"", 0, 0⟩⟩) ⟨"IIS2MDC", ⟨"GPIOA", 4, 0⟩⟩
        ⟨1, 11⟩ (some 7) (boot 9)).2.trace
        = [Call.iis2mdc_magnetic_raw_get 9, Call.iis2mdc_drdy_on_pin_set 9 1] :=
  ⟨by decide,
   (trigger_set_register (okEnv ⟨"GPIOA", ⟨"", 0, 0⟩⟩) ⟨"IIS2MDC", ⟨"GPIOA", 4, 0⟩⟩
      ⟨1, 11⟩ 7 (boot 9) (by decide)).1⟩

/-- C3, as stated, fails in its last clause: in the system of `sensorA` on
`portB`, after a successful initialisation and a successful clearing (the
data-ready-on-pin write returns 0 and no handler is registered), pin 4 is
still armed at the GPIO port; a physical edge is observed and signalled to
the deferred context (one signal pending), the deferred context takes it (one
handler run in progress), and the run completes by re-arming the pin. The
calls recorded after the clearing are the disarm, the hand-off, the take (own
thread) and the re-arm. -/
theorem trigger_set_clear_edge_still_deferred :
    (iis2mdc_trigger_set (okEnv portB) sensorA ⟨SENSOR_TRIG_DATA_READY, SENSOR_CHAN_MAGN_XYZ⟩
        none (initA trigger_mode.OWN_THREAD portB)).1 = 0
    ∧ (clearedA trigger_mode.OWN_THREAD).w.iis2mdc.handler_drdy = none
    ∧ (clearedA trigger_mode.OWN_THREAD).w.gpio_int portB 4
        = gpio_int_flags.GPIO_INT_EDGE_TO_ACTIVE
    ∧ pending trigger_mode.OWN_THREAD
        (run (okEnv portB) trigger_mode.OWN_THREAD sensorA [Step.edge]
          (clearedA trigger_mode.OWN_THREAD)).w = 1
    ∧ (run (okEnv portB) trigger_mode.OWN_THREAD sensorA [Step.edge, Step.take]
          (clearedA trigger_mode.OWN_THREAD)).running = 1
    ∧ (run (okEnv portB) trigger_mode.OWN_THREAD sensorA
          [Step.edge, Step.take, Step.complete]
          (clearedA trigger_mode.OWN_THREAD)).w.trace.drop
            (clearedA trigger_mode.OWN_THREAD).w.trace.length
        = [Call.gpio_pin_interrupt_configure (some portB) 4 gpio_int_flags.GPIO_INT_DISABLE,
           Call.k_sem_give,
           Call.k_sem_take,
           Call.gpio_pin_interrupt_configure (some portB) 4
             gpio_int_flags.GPIO_INT_EDGE_TO_ACTIVE]
    ∧ pending trigger_mode.GLOBAL_THREAD
        (run (okEnv portB) trigger_mode.GLOBAL_THREAD sensorA [Step.edge]
          (clearedA trigger_mode.GLOBAL_THREAD)).w = 1
    ∧ (run (okEnv portB) trigger_mode.GLOBAL_THREAD sensorA [Step.edge, Step.take]
          (clearedA trigger_mode.GLOBAL_THREAD)).running = 1
    ∧ (run (okEnv portB) trigger_mode.GLOBAL_THREAD sensorA
          [Step.edge, Step.take, Step.complete]
          (clearedA trigger_mode.GLOBAL_THREAD)).w.trace.drop
            (clearedA trigger_mode.GLOBAL_THREAD).w.trace.length
        = [Call.gpio_pin_interrupt_configure (some portB) 4 gpio_int_flags.GPIO_INT_DISABLE,
           Call.k_work_submit,
           Call.gpio_pin_interrupt_configure (some portB) 4
             gpio_int_flags.GPIO_INT_EDGE_TO_ACTIVE] := by
  decide

/-- C3, amended: on the MAGNETIC_XYZ channel with a null handler, from any
world, `iis2mdc_trigger_set` leaves no handler registered, records exactly one
call, the data-ready-on-pin write with value 0 (so no raw-sample fetch), and
returns what that write returned. It changes nothing else: the rest of the
driver data, the interrupt mode of every GPIO pin and the installed callbacks
are as before, so an edge that the port would observe before the call it
observes after it, and the edge callback runs. From then on, whatever edges reach the pin and however the
deferred context runs (any sequence of steps, none of them a new
registration), no application handler is called. -/
theorem trigger_set_clear (env : Env) (mode : trigger_mode) (dev : device)
    (trig : sensor_trigger) (w : World) (h : trig.chan = SENSOR_CHAN_MAGN_XYZ) :
    (iis2mdc_trigger_set env dev trig none w).2.iis2mdc.handler_drdy = none
    ∧ (iis2mdc_trigger_set env dev trig none w).2.trace
        = w.trace ++ [Call.iis2mdc_drdy_on_pin_set w.iis2mdc.ctx 0]
    ∧ (iis2mdc_trigger_set env dev trig none w).1
        = env.ret w.trace (Call.iis2mdc_drdy_on_pin_set w.iis2mdc.ctx 0)
    ∧ (iis2mdc_trigger_set env dev trig none w).2.iis2mdc
        = { w.iis2mdc with handler_drdy := none }
    ∧ (iis2mdc_trigger_set env dev trig none w).2.gpio_int = w.gpio_int
    ∧ (iis2mdc_trigger_set env dev trig none w).2.gpio_cbs = w.gpio_cbs
    ∧ (∀ (port : device) (pin : Nat),
        w.gpio_int port pin = gpio_int_flags.GPIO_INT_EDGE_TO_ACTIVE ∧ port ∈ w.gpio_cbs
          ∧ w.iis2mdc.gpio_cb.handler_set = true
          ∧ w.iis2mdc.gpio_cb.pin_mask &&& BIT pin ≠ 0 →
        gpio_edge env mode port pin (iis2mdc_trigger_set env dev trig none w).2
          = iis2mdc_gpio_callback env mode port (w.iis2mdc.gpio_cb.pin_mask &&& BIT pin)
              (iis2mdc_trigger_set env dev trig none w).2)
    ∧ ∀ (l : List Step) (n : Nat),
        handler_calls
          ((run env mode dev l ⟨(iis2mdc_trigger_set env dev trig none w).2, n⟩).w.trace.drop
            (iis2mdc_trigger_set env dev trig none w).2.trace.length) = [] := by
  have h1 : (iis2mdc_trigger_set env dev trig none w).2.iis2mdc.handler_drdy = none := by
    simp [iis2mdc_trigger_set, h, iis2mdc_enable_int, iis2mdc_drdy_on_pin_set, call]
  have h2 : (iis2mdc_trigger_set env dev trig none w).2.iis2mdc
      = { w.iis2mdc with handler_drdy := none } := by
    simp [iis2mdc_trigger_set, h, iis2mdc_enable_int, iis2mdc_drdy_on_pin_set, call]
  have h3 : (iis2mdc_trigger_set env dev trig none w).2.gpio_int = w.gpio_int := by
    simp [iis2mdc_trigger_set, h, iis2mdc_enable_int, iis2mdc_drdy_on_pin_set, call]
  have h4 : (iis2mdc_trigger_set env dev trig none w).2.gpio_cbs = w.gpio_cbs := by
    simp [iis2mdc_trigger_set, h, iis2mdc_enable_int, iis2mdc_drdy_on_pin_set, call]
  refine ⟨h1, ?_, ?_, h2, h3, h4, ?_, ?_⟩
  · simp [iis2mdc_trigger_set, h, iis2mdc_enable_int, iis2mdc_drdy_on_pin_set, call]
  · simp [iis2mdc_trigger_set, h, iis2mdc_enable_int, iis2mdc_drdy_on_pin_set, call]
  · intro port pin hg
    unfold gpio_edge
    rw [h2, h3, h4]
    exact if_pos hg
  · intro l n
    obtain ⟨ext, ht, _, hc⟩ :=
      run_calls env mode dev l ⟨(iis2mdc_trigger_set env dev trig none w).2, n⟩
    rw [ht, List.drop_left]
    apply List.eq_nil_iff_forall_not_mem.mpr
    intro p hp
    have := (hc p hp).1
    rw [h1] at this
    cases this

theorem trigger_set_clear_witness :
    (11 : Nat) = SENSOR_CHAN_MAGN_XYZ
    ∧ (iis2mdc_trigger_set (okEnv ⟨"GPIOA", ⟨"", 0, 0⟩⟩) ⟨"IIS2MDC", ⟨"GPIOA", 4, 0⟩⟩
        ⟨1, 11⟩ none (boot 9)).2.trace = [Call.iis2mdc_drdy_on_pin_set 9 0] :=
  ⟨by decide,
   (trigger_set_clear (okEnv ⟨"GPIOA", ⟨"", 0, 0⟩⟩) trigger_mode.OWN_THREAD
      ⟨"IIS2MDC", ⟨"GPIOA", 4, 0⟩⟩ ⟨1, 11⟩ (boot 9) (by decide)).2.1⟩

/-- C4: registering `f1` and then `f2` on the MAGNETIC_XYZ channel, from any
world and whatever the two calls return, leaves `f2` as the one stored handler,
the same driver data as registering `f2` alone. After any sequence of later
steps, every application handler call made since the second registration is a
call of `f2` with DATA_READY (hence none of a different `f1`), and a run of
`iis2mdc_handle_interrupt` records the call of `f2` followed by the re-arm. -/
theorem trigger_set_twice (env : Env) (mode : trigger_mode) (dev : device)
    (trig : sensor_trigger) (f1 f2 : FunctionRef) (w : World)
    (h : trig.chan = SENSOR_CHAN_MAGN_XYZ) :
    (iis2mdc_trigger_set env dev trig (some f2)
        (iis2mdc_trigger_set env dev trig (some f1) w).2).2.iis2mdc.handler_drdy = some f2
    ∧ (iis2mdc_trigger_set env dev trig (some f2)
        (iis2mdc_trigger_set env dev trig (some f1) w).2).2.iis2mdc
        = (iis2mdc_trigger_set env dev trig (some f2) w).2.iis2mdc
    ∧ ∀ (l : List Step) (n : Nat),
        handler_calls
          ((run env mode dev l ⟨(iis2mdc_trigger_set env dev trig (some f2)
              (iis2mdc_trigger_set env dev trig (some f1) w).2).2, n⟩).w.trace.drop
            (iis2mdc_trigger_set env dev trig (some f2)
              (iis2mdc_trigger_set env dev trig (some f1) w).2).2.trace.length)
          = List.replicate
              (handler_calls
                ((run env mode dev l ⟨(iis2mdc_trigger_set env dev trig (some f2)
                    (iis2mdc_trigger_set env dev trig (some f1) w).2).2, n⟩).w.trace.drop
                  (iis2mdc_trigger_set env dev trig (some f2)
                    (iis2mdc_trigger_set env dev trig (some f1) w).2).2.trace.length)).length
              (f2, SENSOR_TRIG_DATA_READY)
        ∧ (iis2mdc_handle_interrupt env dev
            (run env mode dev l ⟨(iis2mdc_trigger_set env dev trig (some f2)
              (iis2mdc_trigger_set env dev trig (some f1) w).2).2, n⟩).w).trace
          = (run env mode dev l ⟨(iis2mdc_trigger_set env dev trig (some f2)
              (iis2mdc_trigger_set env dev trig (some f1) w).2).2, n⟩).w.trace
            ++ [Call.handler f2 dev ⟨SENSOR_TRIG_DATA_READY, 0⟩,
                Call.gpio_pin_interrupt_configure
                  (run env mode dev l ⟨(iis2mdc_trigger_set env dev trig (some f2)
                    (iis2mdc_trigger_set env dev trig (some f1) w).2).2, n⟩).w.iis2mdc.gpio
                  dev.config_info.drdy_pin gpio_int_flags.GPIO_INT_EDGE_TO_ACTIVE] := by
  have h1 : (iis2mdc_trigger_set env dev trig (some f2)
        (iis2mdc_trigger_set env dev trig (some f1) w).2).2.iis2mdc.handler_drdy = some f2 :=
    (trigger_set_stores env dev trig f2 _ h).1
  refine ⟨h1, ?_, ?_⟩
  · simp [iis2mdc_trigger_set, h, iis2mdc_enable_int, iis2mdc_drdy_on_pin_set,
      iis2mdc_magnetic_raw_get, call]
  · intro l n
    obtain ⟨ext, ht, hh, hc⟩ :=
      run_calls env mode dev l ⟨(iis2mdc_trigger_set env dev trig (some f2)
        (iis2mdc_trigger_set env dev trig (some f1) w).2).2, n⟩
    constructor
    · rw [ht, List.drop_left]
      apply List.eq_replicate_iff.mpr
      refine ⟨rfl, ?_⟩
      intro p hp
      obtain ⟨hf, ht⟩ := hc p hp
      rw [h1] at hf
      injection hf with hf
      exact Prod.ext hf.symm ht
    · rw [handle_interrupt_trace, hh, h1, List.append_assoc]
      rfl

theorem trigger_set_twice_witness :
    (11 : Nat) = SENSOR_CHAN_MAGN_XYZ
    ∧ (iis2mdc_trigger_set (okEnv ⟨"GPIOA", ⟨"", 0, 0⟩⟩) ⟨"IIS2MDC", ⟨"GPIOA", 4, 0⟩⟩
        ⟨1, 11⟩ (some 8)
        (iis2mdc_trigger_set (okEnv ⟨"GPIOA", ⟨"", 0, 0⟩⟩) ⟨"IIS2MDC", ⟨"GPIOA", 4, 0⟩⟩
          ⟨1, 11⟩ (some 7) (boot 9)).2).2.iis2mdc.handler_drdy = some 8 :=
  ⟨by decide,
   (trigger_set_twice (okEnv ⟨"GPIOA", ⟨"", 0, 0⟩⟩) trigger_mode.OWN_THREAD
      ⟨"IIS2MDC", ⟨"GPIOA", 4, 0⟩⟩ ⟨1, 11⟩ 7 8 (boot 9) (by decide)).1⟩

/-- C5: one run of `iis2mdc_handle_interrupt`, from any world, records exactly
this: the call of the registered handler with a DATA_READY descriptor when one
is registered and no handler call when none is, and then, last, one
`gpio_pin_interrupt_configure` for edge-to-active on the sensor's GPIO device
and configured data-ready pin. The driver data is left as it was. -/
theorem handle_interrupt_dispatch (env : Env) (dev : device) (w : World) :
    (iis2mdc_handle_interrupt env dev w).trace
      = w.trace
        ++ (match w.iis2mdc.handler_drdy with
            | some f => [Call.handler f dev ⟨SENSOR_TRIG_DATA_READY, 0⟩]
            | none => [])
        ++ [Call.gpio_pin_interrupt_configure w.iis2mdc.gpio dev.config_info.drdy_pin
              gpio_int_flags.GPIO_INT_EDGE_TO_ACTIVE]
    ∧ (iis2mdc_handle_interrupt env dev w).trace.getLast?
      = some (Call.gpio_pin_interrupt_configure w.iis2mdc.gpio dev.config_info.drdy_pin
              gpio_int_flags.GPIO_INT_EDGE_TO_ACTIVE)
    ∧ (iis2mdc_handle_interrupt env dev w).iis2mdc = w.iis2mdc := by
  refine ⟨handle_interrupt_trace env dev w, ?_, handle_interrupt_iis2mdc env dev w⟩
  rw [handle_interrupt_trace]
  simp

/-! ## End to end -/

/-- C7: with every collaborator succeeding and the data-ready pin a valid pin
of a 32-pin port, from boot, in both deferral strategies:
`iis2mdc_init_interrupt` returns 0 and registering `f` on MAGNETIC_XYZ returns
0. One edge leaves exactly one signal pending. However the deferred context
is scheduled after it, the system is in one of three states: signal pending,
handler run in progress, or run completed; the completed state has exactly one
call of `f`, with DATA_READY, the pin armed, nothing pending and nothing
running, and the deferred context does nothing more from it. A second edge
again leaves exactly one signal pending, and the deferred context again ends,
however scheduled, in the completed state, with exactly two calls of `f`, the
pin armed, nothing pending, nothing running and nothing more to do. -/
theorem end_to_end (env : Env) (mode : trigger_mode) (dev port : device) (ctx : Nat)
    (f : FunctionRef) (trig : sensor_trigger)
    (hb : env.device_get_binding dev.config_info.drdy_port = some port)
    (hr : ∀ h c, env.ret h c = 0)
    (hp : dev.config_info.drdy_pin < 32)
    (hc : trig.chan = SENSOR_CHAN_MAGN_XYZ) :
    (iis2mdc_init_interrupt env mode dev (boot ctx)).1 = 0
    ∧ (iis2mdc_trigger_set env dev trig (some f)
        (iis2mdc_init_interrupt env mode dev (boot ctx)).2).1 = 0
    ∧ pending mode (run env mode dev [Step.edge] (registered env mode dev trig f ctx)).w = 1
    ∧ handler_calls (run env mode dev [Step.edge, Step.take, Step.complete]
            (registered env mode dev trig f ctx)).w.trace = [(f, SENSOR_TRIG_DATA_READY)]
    ∧ (run env mode dev [Step.edge, Step.take, Step.complete]
            (registered env mode dev trig f ctx)).w.gpio_int port dev.config_info.drdy_pin
        = gpio_int_flags.GPIO_INT_EDGE_TO_ACTIVE
    ∧ pending mode (run env mode dev [Step.edge, Step.take, Step.complete]
            (registered env mode dev trig f ctx)).w = 0
    ∧ (run env mode dev [Step.edge, Step.take, Step.complete]
            (registered env mode dev trig f ctx)).running = 0
    ∧ (∀ l : List Step,
        run env mode dev (Step.edge :: deferred_steps l)
                (registered env mode dev trig f ctx)
              = run env mode dev [Step.edge]
                (registered env mode dev trig f ctx)
        ∨ run env mode dev (Step.edge :: deferred_steps l)
                (registered env mode dev trig f ctx)
              = run env mode dev [Step.edge, Step.take]
                (registered env mode dev trig f ctx)
        ∨ run env mode dev (Step.edge :: deferred_steps l)
                (registered env mode dev trig f ctx)
              = run env mode dev [Step.edge, Step.take, Step.complete]
                (registered env mode dev trig f ctx))
    ∧ (∀ l : List Step,
        run env mode dev (Step.edge :: Step.take :: Step.complete :: deferred_steps l)
                (registered env mode dev trig f ctx)
              = run env mode dev [Step.edge, Step.take, Step.complete]
                (registered env mode dev trig f ctx))
    ∧ pending mode (run env mode dev [Step.edge, Step.take, Step.complete, Step.edge]
            (registered env mode dev trig f ctx)).w = 1
    ∧ handler_calls (run env mode dev
            [Step.edge, Step.take, Step.complete, Step.edge, Step.take, Step.complete]
            (registered env mode dev trig f ctx)).w.trace
        = [(f, SENSOR_TRIG_DATA_READY), (f, SENSOR_TRIG_DATA_READY)]
    ∧ (run env mode dev
            [Step.edge, Step.take, Step.complete, Step.edge, Step.take, Step.complete]
            (registered env mode dev trig f ctx)).w.gpio_int port dev.config_info.drdy_pin
        = gpio_int_flags.GPIO_INT_EDGE_TO_ACTIVE
    ∧ pending mode (run env mode dev
            [Step.edge, Step.take, Step.complete, Step.edge, Step.take, Step.complete]
            (registered env mode dev trig f ctx)).w = 0
    ∧ (run env mode dev
            [Step.edge, Step.take, Step.complete, Step.edge, Step.take, Step.complete]
            (registered env mode dev trig f ctx)).running = 0
    ∧ (∀ l : List Step,
        run env mode dev (Step.edge :: Step.take :: Step.complete :: Step.edge :: deferred_steps l)
                (registered env mode dev trig f ctx)
              = run env mode dev [Step.edge, Step.take, Step.complete, Step.edge]
                (registered env mode dev trig f ctx)
        ∨ run env mode dev (Step.edge :: Step.take :: Step.complete :: Step.edge :: deferred_steps l)
                (registered env mode dev trig f ctx)
              = run env mode dev [Step.edge, Step.take, Step.complete, Step.edge, Step.take]
                (registered env mode dev trig f ctx)
        ∨ run env mode dev (Step.edge :: Step.take :: Step.complete :: Step.edge :: deferred_steps l)
                (registered env mode dev trig f ctx)
              = run env mode dev
                [Step.edge, Step.take, Step.complete, Step.edge, Step.take, Step.complete]
                (registered env mode dev trig f ctx))
    ∧ (∀ l : List Step,
        run env mode dev
                (Step.edge :: Step.take :: Step.complete :: Step.edge :: Step.take
                  :: Step.complete :: deferred_steps l)
                (registered env mode dev trig f ctx)
              = run env mode dev
                [Step.edge, Step.take, Step.complete, Step.edge, Step.take, Step.complete]
                (registered env mode dev trig f ctx)) := by
  have hbit := BIT_ne_zero _ hp
  have base :
      ((iis2mdc_init_interrupt env mode dev (boot ctx)).1 = 0
      ∧ (iis2mdc_trigger_set env dev trig (some f)
          (iis2mdc_init_interrupt env mode dev (boot ctx)).2).1 = 0)
      ∧ (pending mode (run env mode dev [Step.edge] (registered env mode dev trig f ctx)).w = 1
        ∧ (run env mode dev [Step.edge] (registered env mode dev trig f ctx)).running = 0
        ∧ (run env mode dev [Step.edge, Step.take]
                (registered env mode dev trig f ctx)).running = 1)
      ∧ (handler_calls (run env mode dev [Step.edge, Step.take, Step.complete]
              (registered env mode dev trig f ctx)).w.trace = [(f, SENSOR_TRIG_DATA_READY)]
        ∧ (run env mode dev [Step.edge, Step.take, Step.complete]
                (registered env mode dev trig f ctx)).w.gpio_int port dev.config_info.drdy_pin
            = gpio_int_flags.GPIO_INT_EDGE_TO_ACTIVE
        ∧ pending mode (run env mode dev [Step.edge, Step.take, Step.complete]
                (registered env mode dev trig f ctx)).w = 0
        ∧ (run env mode dev [Step.edge, Step.take, Step.complete]
                (registered env mode dev trig f ctx)).running = 0)
      ∧ (pending mode (run env mode dev [Step.edge, Step.take, Step.complete, Step.edge]
              (registered env mode dev trig f ctx)).w = 1
        ∧ (run env mode dev [Step.edge, Step.take, Step.complete, Step.edge]
                (registered env mode dev trig f ctx)).running = 0
        ∧ (run env mode dev [Step.edge, Step.take, Step.complete, Step.edge, Step.take]
                (registered env mode dev trig f ctx)).running = 1)
      ∧ (handler_calls (run env mode dev
              [Step.edge, Step.take, Step.complete, Step.edge, Step.take, Step.complete]
              (registered env mode dev trig f ctx)).w.trace
            = [(f, SENSOR_TRIG_DATA_READY), (f, SENSOR_TRIG_DATA_READY)]
        ∧ (run env mode dev
                [Step.edge, Step.take, Step.complete, Step.edge, Step.take, Step.complete]
                (registered env mode dev trig f ctx)).w.gpio_int port dev.config_info.drdy_pin
            = gpio_int_flags.GPIO_INT_EDGE_TO_ACTIVE
        ∧ pending mode (run env mode dev
                [Step.edge, Step.take, Step.complete, Step.edge, Step.take, Step.complete]
                (registered env mode dev trig f ctx)).w = 0
        ∧ (run env mode dev
                [Step.edge, Step.take, Step.complete, Step.edge, Step.take, Step.complete]
                (registered env mode dev trig f ctx)).running = 0) := by
    cases mode <;>
      simp [registered, pending, iis2mdc_init_interrupt, iis2mdc_trigger_set, run, step,
        gpio_edge, deferred_take, deferred_complete, iis2mdc_gpio_callback,
        iis2mdc_handle_interrupt, iis2mdc_work_cb, iis2mdc_enable_int, iis2mdc_drdy_on_pin_set,
        iis2mdc_magnetic_raw_get, call, emit, gpio_pin_interrupt_configure, gpio_pin_configure,
        gpio_init_callback, gpio_add_callback, k_sem_init, k_thread_create, k_sem_give,
        k_sem_take, k_work_submit, invoke_handler, boot, handler_calls, hb, hr, hc, hbit,
        UINT_MAX]
  obtain ⟨⟨hi, hs⟩, ⟨he1, he1r, ht1⟩, ⟨hc1, ha1, hp1, hr1⟩, ⟨he2, he2r, ht2⟩,
    ⟨hc2, ha2, hp2, hr2⟩⟩ := base
  refine ⟨hi, hs, he1, hc1, ha1, hp1, hr1, ?_, ?_, he2, hc2, ha2, hp2, hr2, ?_, ?_⟩
  · intro l
    exact deferred_schedule env mode dev (run env mode dev [Step.edge]
            (registered env mode dev trig f ctx)) he1r
      (by rw [show step env mode dev Step.take
              (run env mode dev [Step.edge]
              (registered env mode dev trig f ctx))
            = run env mode dev [Step.edge, Step.take]
              (registered env mode dev trig f ctx)
            from rfl, ht1]; decide)
      ⟨hp1, hr1⟩ l
  · intro l
    exact deferred_idle env mode dev (run env mode dev [Step.edge, Step.take, Step.complete]
            (registered env mode dev trig f ctx)) hp1 hr1 l
  · intro l
    exact deferred_schedule env mode dev (run env mode dev [Step.edge, Step.take, Step.complete, Step.edge]
            (registered env mode dev trig f ctx)) he2r
      (by rw [show step env mode dev Step.take
              (run env mode dev [Step.edge, Step.take, Step.complete, Step.edge]
              (registered env mode dev trig f ctx))
            = run env mode dev [Step.edge, Step.take, Step.complete, Step.edge, Step.take]
              (registered env mode dev trig f ctx)
            from rfl, ht2]; decide)
      ⟨hp2, hr2⟩ l
  · intro l
    exact deferred_idle env mode dev (run env mode dev
            [Step.edge, Step.take, Step.complete, Step.edge, Step.take, Step.complete]
            (registered env mode dev trig f ctx)) hp2 hr2 l

theorem end_to_end_witness :
    (okEnv portA).device_get_binding sensorA.config_info.drdy_port = some portA
    ∧ sensorA.config_info.drdy_pin < 32
    ∧ handler_calls
        (run (okEnv portA) trigger_mode.GLOBAL_THREAD sensorA
          [Step.edge, Step.take, Step.complete]
          (registered (okEnv portA) trigger_mode.GLOBAL_THREAD sensorA ⟨0, 11⟩ 7 3)).w.trace
        = [(7, SENSOR_TRIG_DATA_READY)] :=
  ⟨by decide, by decide,
   (end_to_end (okEnv portA) trigger_mode.GLOBAL_THREAD sensorA portA 3 7 ⟨0, 11⟩
      (by decide) (fun _ _ => rfl) (by decide) (by decide)).2.2.2.1⟩

/-! ## Initialisation -/

/-- C8: evaluation at the failing input. The environment makes
`gpio_pin_configure` fail with `-EIO` (the device lookup and every other call
succeed); `iis2mdc_init_interrupt` makes that call, discards its result, and
returns 0, in both build variants. -/
theorem init_interrupt_pin_configure_failure_unreported :
    (pinConfigureFailEnv portA).ret [Call.device_get_binding "GPIOA"]
        (Call.gpio_pin_configure (some portA) 4 (GPIO_INPUT ||| 0)) = - EIO
    ∧ (iis2mdc_init_interrupt (pinConfigureFailEnv portA) trigger_mode.GLOBAL_THREAD sensorA
        (boot 0)).2.trace
        = [Call.device_get_binding "GPIOA",
           Call.gpio_pin_configure (some portA) 4 (GPIO_INPUT ||| 0),
           Call.gpio_init_callback (BIT 4),
           Call.gpio_add_callback (some portA),
           Call.gpio_pin_interrupt_configure (some portA) 4
             gpio_int_flags.GPIO_INT_EDGE_TO_ACTIVE]
    ∧ (iis2mdc_init_interrupt (pinConfigureFailEnv portA) trigger_mode.GLOBAL_THREAD sensorA
        (boot 0)).1 = 0
    ∧ (iis2mdc_init_interrupt (pinConfigureFailEnv portA) trigger_mode.OWN_THREAD sensorA
        (boot 0)).1 = 0 := by
  decide

/-! ## Edge callback and the in-flight bound -/

/-- C10: evaluation at the failing input. After a successful initialisation of
`sensorA` (data-ready pin 4) on `portA`, the edge callback, called with the
port as its device argument, records two calls: it disables interrupt
detection on pin 5, the number read through the port's `config_info`, and gives
the semaphore (own thread) or submits the work item (work queue). Pin 4, the
pin that initialisation armed, stays armed. -/
theorem gpio_callback_disarms_pin_of_port_config :
    (iis2mdc_init_interrupt (okEnv portA) trigger_mode.OWN_THREAD sensorA (boot 0)).1 = 0
    ∧ (initA trigger_mode.OWN_THREAD portA).gpio_int portA 4
        = gpio_int_flags.GPIO_INT_EDGE_TO_ACTIVE
    ∧ (iis2mdc_gpio_callback (okEnv portA) trigger_mode.OWN_THREAD portA (BIT 4)
        (initA trigger_mode.OWN_THREAD portA)).trace.drop
          (initA trigger_mode.OWN_THREAD portA).trace.length
        = [Call.gpio_pin_interrupt_configure (some portA) 5 gpio_int_flags.GPIO_INT_DISABLE,
           Call.k_sem_give]
    ∧ (iis2mdc_gpio_callback (okEnv portA) trigger_mode.OWN_THREAD portA (BIT 4)
        (initA trigger_mode.OWN_THREAD portA)).gpio_int portA 4
        = gpio_int_flags.GPIO_INT_EDGE_TO_ACTIVE
    ∧ (iis2mdc_gpio_callback (okEnv portA) trigger_mode.GLOBAL_THREAD portA (BIT 4)
        (initA trigger_mode.GLOBAL_THREAD portA)).trace.drop
          (initA trigger_mode.GLOBAL_THREAD portA).trace.length
        = [Call.gpio_pin_interrupt_configure (some portA) 5 gpio_int_flags.GPIO_INT_DISABLE,
           Call.k_work_submit]
    ∧ (iis2mdc_gpio_callback (okEnv portA) trigger_mode.GLOBAL_THREAD portA (BIT 4)
        (initA trigger_mode.GLOBAL_THREAD portA)).gpio_int portA 4
        = gpio_int_flags.GPIO_INT_EDGE_TO_ACTIVE := by
  decide

/-- C6: evaluation at the failing input. After a successful initialisation of
`sensorA` on `portA`, every collaborator succeeding: one edge leaves a signal
pending while pin 4 is still armed; a second edge is observed and brings the
semaphore to 2 (own thread); with the work queue, an edge that arrives while
the handler runs is observed and queues work again, one pending plus one
running. -/
theorem in_flight_bound_broken :
    (iis2mdc_init_interrupt (okEnv portA) trigger_mode.OWN_THREAD sensorA (boot 0)).1 = 0
    ∧ pending trigger_mode.OWN_THREAD
        (run (okEnv portA) trigger_mode.OWN_THREAD sensorA [Step.edge]
          ⟨initA trigger_mode.OWN_THREAD portA, 0⟩).w = 1
    ∧ (run (okEnv portA) trigger_mode.OWN_THREAD sensorA [Step.edge]
          ⟨initA trigger_mode.OWN_THREAD portA, 0⟩).w.gpio_int portA 4
        = gpio_int_flags.GPIO_INT_EDGE_TO_ACTIVE
    ∧ pending trigger_mode.OWN_THREAD
        (run (okEnv portA) trigger_mode.OWN_THREAD sensorA [Step.edge, Step.edge]
          ⟨initA trigger_mode.OWN_THREAD portA, 0⟩).w = 2
    ∧ (iis2mdc_init_interrupt (okEnv portA) trigger_mode.GLOBAL_THREAD sensorA (boot 0)).1 = 0
    ∧ pending trigger_mode.GLOBAL_THREAD
        (run (okEnv portA) trigger_mode.GLOBAL_THREAD sensorA
          [Step.edge, Step.take, Step.edge]
          ⟨initA trigger_mode.GLOBAL_THREAD portA, 0⟩).w = 1
    ∧ (run (okEnv portA) trigger_mode.GLOBAL_THREAD sensorA
          [Step.edge, Step.take, Step.edge]
          ⟨initA trigger_mode.GLOBAL_THREAD portA, 0⟩).running = 1 := by
  decide

/-! ## Failure of the re-arm -/

/-- C9, as stated, fails: in the system of `sensorA` on `portB`, with the pin
disarmed by the edge callback and the handler run about to execute, a re-arm
that fails with `-EIO` leaves the same history of calls and the same driver
data as a re-arm that succeeds, and the history holds no log call. Only the
pin differs: disarmed after the failure, armed after the success. -/
theorem handle_interrupt_rearm_failure_not_recorded :
    (takenA trigger_mode.OWN_THREAD).w.gpio_int portB 4 = gpio_int_flags.GPIO_INT_DISABLE
    ∧ (gpio_pin_interrupt_configure (rearmFailEnv portB) (some portB) 4
        gpio_int_flags.GPIO_INT_EDGE_TO_ACTIVE (takenA trigger_mode.OWN_THREAD).w).1 = - EIO
    ∧ (iis2mdc_handle_interrupt (rearmFailEnv portB) sensorA
        (takenA trigger_mode.OWN_THREAD).w).trace
        = (iis2mdc_handle_interrupt (okEnv portB) sensorA
            (takenA trigger_mode.OWN_THREAD).w).trace
    ∧ (iis2mdc_handle_interrupt (rearmFailEnv portB) sensorA
        (takenA trigger_mode.OWN_THREAD).w).iis2mdc
        = (iis2mdc_handle_interrupt (okEnv portB) sensorA
            (takenA trigger_mode.OWN_THREAD).w).iis2mdc
    ∧ log_calls (iis2mdc_handle_interrupt (rearmFailEnv portB) sensorA
        (takenA trigger_mode.OWN_THREAD).w).trace = []
    ∧ (iis2mdc_handle_interrupt (rearmFailEnv portB) sensorA
        (takenA trigger_mode.OWN_THREAD).w).gpio_int portB 4
        = gpio_int_flags.GPIO_INT_DISABLE
    ∧ (iis2mdc_handle_interrupt (okEnv portB) sensorA
        (takenA trigger_mode.OWN_THREAD).w).gpio_int portB 4
        = gpio_int_flags.GPIO_INT_EDGE_TO_ACTIVE := by
  decide

/-- C9, amended: from any world, if the re-arm at the end of
`iis2mdc_handle_interrupt` fails, the failure is neither propagated (the
function returns nothing) nor logged or recorded: the run records exactly the
calls it records under any other environment, none of them a log call, and
leaves the driver data as it was; the interrupt mode of every pin, and the
installed callbacks, stay what they were before the run, so a pin that the
edge callback disarmed is left disarmed. -/
theorem handle_interrupt_rearm_failure (env env' : Env) (dev : device) (w : World)
    (hfail : env.ret
        (w.trace ++ (match w.iis2mdc.handler_drdy with
                     | some f => [Call.handler f dev ⟨SENSOR_TRIG_DATA_READY, 0⟩]
                     | none => []))
        (Call.gpio_pin_interrupt_configure w.iis2mdc.gpio dev.config_info.drdy_pin
          gpio_int_flags.GPIO_INT_EDGE_TO_ACTIVE) ≠ 0) :
    (iis2mdc_handle_interrupt env dev w).trace = (iis2mdc_handle_interrupt env' dev w).trace
    ∧ log_calls ((iis2mdc_handle_interrupt env dev w).trace.drop w.trace.length) = []
    ∧ (iis2mdc_handle_interrupt env dev w).iis2mdc = w.iis2mdc
    ∧ (iis2mdc_handle_interrupt env dev w).gpio_int = w.gpio_int
    ∧ (iis2mdc_handle_interrupt env dev w).gpio_cbs = w.gpio_cbs := by
  refine ⟨by rw [handle_interrupt_trace, handle_interrupt_trace], ?_,
    handle_interrupt_iis2mdc env dev w, ?_, ?_⟩
  · rw [handle_interrupt_trace, List.append_assoc, List.drop_left]
    cases w.iis2mdc.handler_drdy <;> simp [log_calls]
  · unfold iis2mdc_handle_interrupt
    cases h : w.iis2mdc.handler_drdy with
    | none =>
      rw [h] at hfail
      simp only [List.append_nil] at hfail
      simp only []
      rw [gpic_world_of_fail _ _ _ _ _ hfail]
      rfl
    | some f =>
      rw [h] at hfail
      simp only []
      rw [gpic_world_of_fail _ _ _ _ _ (by simpa [invoke_handler, emit] using hfail)]
      rfl
  · unfold iis2mdc_handle_interrupt
    cases w.iis2mdc.handler_drdy <;> simp [gpic_gpio_cbs, invoke_handler, emit]

theorem handle_interrupt_rearm_failure_witness :
    (rearmFailEnv portB).ret
        ((takenA trigger_mode.OWN_THREAD).w.trace
          ++ [Call.handler 7 sensorA ⟨SENSOR_TRIG_DATA_READY, 0⟩])
        (Call.gpio_pin_interrupt_configure (some portB) 4
          gpio_int_flags.GPIO_INT_EDGE_TO_ACTIVE) ≠ 0
    ∧ (iis2mdc_handle_interrupt (rearmFailEnv portB) sensorA
        (takenA trigger_mode.OWN_THREAD).w).gpio_int
        = (takenA trigger_mode.OWN_THREAD).w.gpio_int :=
  ⟨by decide,
   (handle_interrupt_rearm_failure (rearmFailEnv portB) (okEnv portB) sensorA
      (takenA trigger_mode.OWN_THREAD).w (by decide)).2.2.2.1⟩

/-! ## The in-flight bound where the edge callback reaches the sensor pin -/

theorem pending_congr (mode : trigger_mode) (w w' : World) (h : w'.iis2mdc = w.iis2mdc) :
    pending mode w' = pending mode w := by
  cases mode <;> simp [pending, h]

/-- One step keeps the in-flight bound, provided the pin number read through
the port's `config_info` is the sensor's and disabling detection succeeds. -/
theorem step_in_flight (env : Env) (mode : trigger_mode) (dev port : device)
    (hpin : port.config_info.drdy_pin = dev.config_info.drdy_pin)
    (hdis : ∀ h p n, env.ret h
      (Call.gpio_pin_interrupt_configure p n gpio_int_flags.GPIO_INT_DISABLE) = 0)
    (a : Step) (s : Sys) (hs : in_flight_ok mode port dev.config_info.drdy_pin s) :
    in_flight_ok mode port dev.config_info.drdy_pin (step env mode dev a s) := by
  obtain ⟨hg, hle, harm⟩ := hs
  cases a with
  | edge =>
    simp only [step, hg, gpio_edge]
    split_ifs with hc
    · have h0 := harm hc.1
      cases mode
      · simp only [pending] at h0
        have hcnt : s.w.iis2mdc.gpio_sem.count = 0 := by omega
        have hrun : s.running = 0 := by omega
        refine ⟨?_, ?_, ?_⟩
        · simp [iis2mdc_gpio_callback, k_sem_give, emit, gpic_iis2mdc, hg]
        · simp only [iis2mdc_gpio_callback, k_sem_give, emit, gpic_iis2mdc, pending, hcnt,
            hrun]
          split_ifs <;> omega
        · intro harmed
          simp [iis2mdc_gpio_callback, k_sem_give, emit, gpio_pin_interrupt_configure, hdis,
            hpin] at harmed
      · have hrun : s.running = 0 := by omega
        refine ⟨?_, ?_, ?_⟩
        · simp [iis2mdc_gpio_callback, k_work_submit, emit, gpic_iis2mdc, hg]
        · simp [iis2mdc_gpio_callback, k_work_submit, emit, pending, hrun]
        · intro harmed
          simp [iis2mdc_gpio_callback, k_work_submit, emit, gpio_pin_interrupt_configure, hdis,
            hpin] at harmed
    · exact ⟨hg, hle, harm⟩
  | take =>
    cases mode
    · simp only [step, deferred_take]
      split_ifs with hc
      · obtain ⟨_, hrun, hpos⟩ := hc
        simp only [pending] at hle harm
        refine ⟨by simp [k_sem_take, emit, hg], ?_, ?_⟩
        · simp only [k_sem_take, emit, pending]; omega
        · intro harmed
          have := harm (by simpa [k_sem_take, emit] using harmed)
          omega
      · exact ⟨hg, hle, harm⟩
    · simp only [step, deferred_take]
      split_ifs with hc
      · obtain ⟨_, hrun, hpend⟩ := hc
        simp only [pending, hpend, if_true] at hle harm
        refine ⟨by simp [hg], by simp [pending], ?_⟩
        intro harmed
        have := harm harmed
        omega
      · exact ⟨hg, hle, harm⟩
  | complete =>
    simp only [step, deferred_complete]
    split_ifs with hc
    · exact ⟨hg, hle, harm⟩
    · have hw : (match mode with
          | trigger_mode.OWN_THREAD => iis2mdc_handle_interrupt env dev s.w
          | trigger_mode.GLOBAL_THREAD => iis2mdc_work_cb env s.w).iis2mdc = s.w.iis2mdc := by
        cases mode
        · exact handle_interrupt_iis2mdc env dev s.w
        · simp only [iis2mdc_work_cb]
          cases s.w.iis2mdc.dev with
          | none => rfl
          | some d => exact handle_interrupt_iis2mdc env d s.w
      have hp := pending_congr mode s.w _ hw
      refine ⟨by rw [hw]; exact hg, ?_, ?_⟩
      · show pending mode _ + (s.running - 1) ≤ 1
        rw [hp]; omega
      · intro _
        show pending mode _ + (s.running - 1) = 0
        rw [hp]; omega

theorem add_callback_iis2mdc (env : Env) (port : Option device) (w : World) :
    (gpio_add_callback env port w).2.iis2mdc = w.iis2mdc := by
  unfold gpio_add_callback
  cases port with
  | none => rfl
  | some p => by_cases h : env.ret w.trace (Call.gpio_add_callback (some p)) = 0
              <;> simp [h, emit]

/-- The driver data that initialisation leaves once the port is found, whatever
the later calls return. -/
theorem init_interrupt_iis2mdc (env : Env) (mode : trigger_mode) (dev port : device)
    (w : World) (hb : env.device_get_binding dev.config_info.drdy_port = some port) :
    (iis2mdc_init_interrupt env mode dev w).2.iis2mdc
      = match mode with
        | trigger_mode.OWN_THREAD =>
          { w.iis2mdc with gpio := some port,
                           gpio_cb := { handler_set := true, pin_mask := BIT dev.config_info.drdy_pin },
                           gpio_sem := { count := 0, limit := UINT_MAX }, thread := true }
        | trigger_mode.GLOBAL_THREAD =>
          { w.iis2mdc with gpio := some port,
                           gpio_cb := { handler_set := true, pin_mask := BIT dev.config_info.drdy_pin },
                           work := { w.iis2mdc.work with handler_set := true },
                           dev := some dev } := by
  unfold iis2mdc_init_interrupt
  simp only [hb, reduceCtorEq, if_false]
  cases mode <;>
    (simp only []
     split_ifs <;>
       simp [gpic_iis2mdc, add_callback_iis2mdc, gpio_init_callback, gpio_pin_configure, call,
         emit, k_thread_create, k_sem_init])

/-- After initialisation from boot has found the port, every reachable state
keeps the in-flight bound, provided the pin number read through the port's
`config_info` is the sensor's and disabling detection succeeds. -/
theorem in_flight_invariant (env : Env) (mode : trigger_mode) (dev port : device) (ctx : Nat)
    (hb : env.device_get_binding dev.config_info.drdy_port = some port)
    (hpin : port.config_info.drdy_pin = dev.config_info.drdy_pin)
    (hdis : ∀ h p n, env.ret h
      (Call.gpio_pin_interrupt_configure p n gpio_int_flags.GPIO_INT_DISABLE) = 0)
    (l : List Step) :
    in_flight_ok mode port dev.config_info.drdy_pin
      (run env mode dev l ⟨(iis2mdc_init_interrupt env mode dev (boot ctx)).2, 0⟩) := by
  have h0 : in_flight_ok mode port dev.config_info.drdy_pin
      ⟨(iis2mdc_init_interrupt env mode dev (boot ctx)).2, 0⟩ := by
    have hi := init_interrupt_iis2mdc env mode dev port (boot ctx) hb
    have hpend : pending mode (iis2mdc_init_interrupt env mode dev (boot ctx)).2 = 0 := by
      cases mode
      · simp only [pending]; rw [hi]
      · simp only [pending]; rw [hi]; rfl
    refine ⟨?_, ?_, ?_⟩
    · show (iis2mdc_init_interrupt env mode dev (boot ctx)).2.iis2mdc.gpio = some port
      rw [hi]
      cases mode <;> rfl
    · simp [hpend]
    · intro _; simp [hpend]
  generalize (⟨(iis2mdc_init_interrupt env mode dev (boot ctx)).2, 0⟩ : Sys) = s at h0
  induction l generalizing s with
  | nil => exact h0
  | cons a l ih => exact ih _ (step_in_flight env mode dev port hpin hdis a s h0)

end Iis2mdc
